import Mathlib

/-!
Verification of the pico3207a repository: a shallow embedding of the
lifecycle state machine (`src/device.py`, class `Device`), the acquisition
pipeline (`src/picoscope3207a.py`, class `Picoscope3207a`) and the rate
limiter (`src/clockwork.py`, `clockwork`), together with theorems settling
the specification claims.
-/

namespace Pico

/-! ### Device lifecycle state machine (src/device.py)

`Device.__init__` sets `_opening = _open = _running = _allow_save =
_has_error = False`.  The public operations `open`, `close`, `start`,
`stop`, `toggle_save` mutate these flags.  The child hooks
(`_open_device`, `_close_device`, `_start_device`, `_stop_device`) either
succeed (returning `True`) or raise; `HookBeh` records which happened on a
given call.  `open` and `start` catch the exception and set `_has_error`;
`close` and `stop` do not catch, so a raising hook aborts the rest of the
method body (state mutations made before the raise remain).

Instrumentation fields record externally visible effects that the claims
talk about: `open_calls` counts invocations of the `_open_device` hook,
`spawned` counts background threads started by `Device.open`, and
`queue_gen` counts reallocations of `_data_queue` (`Queue()` in
`Device.open`).  `has_save_thread` / `has_update_thread` model
`_has_save_thread` / `_has_update_thread` (set to `None`, i.e. falsy, by
`Device.__init__` and never set by `Picoscope3207a`).

Note: `Device.__init__` constructs `_error_check_thread =
Thread(target=self.check_error)` but no code ever starts it, so the
`check_error` monitor loop never runs and is not part of the reachable
dynamics. -/

inductive HookBeh
  | ok
  | err
deriving DecidableEq, Repr

structure DeviceState where
  opening : Bool
  is_open : Bool
  running : Bool
  allow_save : Bool
  has_error : Bool
  has_save_thread : Bool
  has_update_thread : Bool
  open_calls : Nat
  spawned : Nat
  queue_gen : Nat
deriving DecidableEq, Repr

/-- `Device.__init__` (src/device.py lines 59-74): all flags false. -/
def init : DeviceState :=
  ⟨false, false, false, false, false, false, false, 0, 0, 0⟩

/-- `Device.ready` (src/device.py lines 76-79): `return self._open`. -/
def ready (s : DeviceState) : Bool :=
  s.is_open

/-- `Device.open` (src/device.py lines 84-113).  Sets `_opening = True`,
then invokes the `_open_device` hook inside `try`: on success `_open =
True`; on raise `_has_error = True` and `_open` keeps its old value.
Afterwards, `if self._open:` allocate `_data_queue` when either thread
flag is set and start the save / update threads.  There is no guard on the
current state: the routine runs in full on every call. -/
def open_dev (h : HookBeh) (s : DeviceState) : DeviceState :=
  let s1 : DeviceState :=
    { s with opening := true, open_calls := s.open_calls + 1 }
  let s2 : DeviceState :=
    match h with
    | .ok => { s1 with is_open := true }
    | .err => { s1 with has_error := true }
  if s2.is_open then
    let s3 : DeviceState :=
      if s2.has_save_thread || s2.has_update_thread then
        { s2 with queue_gen := s2.queue_gen + 1 }
      else s2
    let s4 : DeviceState :=
      if s3.has_save_thread then { s3 with spawned := s3.spawned + 1 } else s3
    if s4.has_update_thread then { s4 with spawned := s4.spawned + 1 } else s4
  else s2

/-- `Device.stop` (src/device.py lines 172-181): under the lifecycle lock,
sets `_running = False` and `_allow_save = False`, then calls the
`_stop_device` hook.  The hook is not wrapped in `try`, but both
assignments precede it, so the state change is the same whether the hook
succeeds or raises. -/
def stop_dev (_h : HookBeh) (s : DeviceState) : DeviceState :=
  { s with running := false, allow_save := false }

/-- `Device.close` (src/device.py lines 120-131): if `_open`, first
`stop()` when `_running` (a raising `_stop_device` hook propagates out of
`close` before `_open` is cleared), then `_open = False`, `_opening =
False`, and finally the `_close_device` hook (whose raising changes no
further state).  If not `_open`, nothing happens. -/
def close_dev (sh _ch : HookBeh) (s : DeviceState) : DeviceState :=
  if s.is_open then
    if s.running then
      let s1 := stop_dev sh s
      match sh with
      | .err => s1
      | .ok => { s1 with is_open := false, opening := false }
    else { s with is_open := false, opening := false }
  else s

/-- `Device.start` (src/device.py lines 137-165): when `_open`, under the
lifecycle lock and when not already `_running`, optionally `_create_log()`
(a `pass` for this repository), then `_running = self._start_device()`
inside `try`: on success `_running = True`, on raise `_has_error = True`
with `_running` unchanged.  When not `_open`, or already `_running`, only
a diagnostic is printed. -/
def start_dev (h : HookBeh) (s : DeviceState) : DeviceState :=
  if s.is_open then
    if s.running then s
    else
      match h with
      | .ok => { s with running := true }
      | .err => { s with has_error := true }
  else s

/-- `Device.toggle_save` (src/device.py lines 196-205): `_create_log()` (a
`pass`) when enabling, then `_allow_save = not _allow_save`. -/
def toggle_save_dev (s : DeviceState) : DeviceState :=
  { s with allow_save := !s.allow_save }

/-- One public lifecycle call together with the behaviour of the device
hooks it invokes. -/
inductive Op
  | opOpen (h : HookBeh)
  | opClose (sh ch : HookBeh)
  | opStart (h : HookBeh)
  | opStop (h : HookBeh)
  | opToggleSave
deriving DecidableEq, Repr

def step (o : Op) (s : DeviceState) : DeviceState :=
  match o with
  | .opOpen h => open_dev h s
  | .opClose sh ch => close_dev sh ch s
  | .opStart h => start_dev h s
  | .opStop h => stop_dev h s
  | .opToggleSave => toggle_save_dev s

/-- The state after a finite sequence of public lifecycle calls. -/
def run_ops : List Op → DeviceState → DeviceState
  | [], s => s
  | o :: rest, s => run_ops rest (step o s)

/-- Every single lifecycle call preserves the invariant
`_running → _open`. -/
lemma step_preserves_running_open (o : Op) (s : DeviceState)
    (h : s.running = true → s.is_open = true) :
    (step o s).running = true → (step o s).is_open = true := by
  cases o with
  | opOpen hb =>
    cases hb <;>
      simp only [step, open_dev] <;>
      split <;> (try split) <;> (try split) <;> (try split) <;>
      simp_all
  | opClose sh ch =>
    cases sh <;>
      simp only [step, close_dev, stop_dev] <;>
      split <;> (try split) <;> simp_all
  | opStart hb =>
    cases hb <;>
      simp only [step, start_dev] <;>
      split <;> (try split) <;> simp_all
  | opStop hb => simp [step, stop_dev]
  | opToggleSave => simpa [step, toggle_save_dev] using h

lemma run_ops_preserves_running_open (ops : List Op) (s : DeviceState)
    (h : s.running = true → s.is_open = true) :
    (run_ops ops s).running = true → (run_ops ops s).is_open = true := by
  induction ops generalizing s with
  | nil => exact h
  | cons o rest ih =>
    exact ih (step o s) (step_preserves_running_open o s h)

/-- No lifecycle call ever clears `_has_error`: the assignments
`_has_error = True` in `open`/`start` (and in the parent `save`/`update`
loops) are the only writes to the flag outside `__init__`. -/
lemma step_has_error_mono (o : Op) (s : DeviceState)
    (h : s.has_error = true) : (step o s).has_error = true := by
  cases o with
  | opOpen hb =>
    cases hb <;>
      simp only [step, open_dev] <;>
      split <;> (try split) <;> (try split) <;> (try split) <;> simp_all
  | opClose sh ch =>
    cases sh <;>
      simp only [step, close_dev, stop_dev] <;>
      split <;> (try split) <;> simp_all
  | opStart hb =>
    cases hb <;>
      simp only [step, start_dev] <;>
      split <;> (try split) <;> simp_all
  | opStop hb => simpa [step, stop_dev] using h
  | opToggleSave => simpa [step, toggle_save_dev] using h

lemma run_ops_has_error_mono (ops : List Op) (s : DeviceState)
    (h : s.has_error = true) : (run_ops ops s).has_error = true := by
  induction ops generalizing s with
  | nil => exact h
  | cons o rest ih => exact ih (step o s) (step_has_error_mono o s h)

/-! ### Rate limiter (src/clockwork.py)

`clockwork(duration)` wraps a method: record `start = time.time()`, run the
method, then busy-wait `while (time.time()-start) < (duration -
contingency): pass` with `contingency = 0.001`, and return the method's
result.  In idealized continuous time, a call whose body took `elapsed`
seconds therefore occupies `max elapsed (duration - contingency)` seconds
in total.  `Timed` packages a completed operation: its return value and
the wall-clock time the body itself took. -/

structure Timed (α : Type) where
  result : α
  elapsed : ℚ
deriving DecidableEq, Repr

/-- `contingency = 0.001` in `clockwork.wrapper`. -/
def contingency : ℚ := 1 / 1000

/-- The wrapped call produced by `clockwork duration`: same result, total
duration extended by the busy-wait to `duration - contingency` when the
body finished earlier. -/
def clockwork_run (duration : ℚ) (op : Timed α) : Timed α :=
  ⟨op.result, max op.elapsed (duration - contingency)⟩

/-- `LOOP_FREQ = 1` Hz (src/picoscope3207a.py line 59). -/
def LOOP_FREQ : ℚ := 1

/-- `LOOP_TIME = 1 / LOOP_FREQ` (src/picoscope3207a.py line 60). -/
def LOOP_TIME : ℚ := 1 / LOOP_FREQ

/-! ### Acquisition pipeline (src/picoscope3207a.py)

`Picoscope3207a.run` (wrapped by `@clockwork(LOOP_TIME)`) does nothing
unless `self._collecting or override`.  Otherwise it drives one block
acquisition through the driver, scales the two raw int16 channels by
`self.v_range / MAX_EXT` (where `v_range = CHANNEL_RANGE[7]["apivalue"] =
8` is set in `_start_device` and `MAX_EXT = 32767`), builds `time_data`
with `np.linspace` plus the trigger offset, stores the results in
`_A_data`, `_B_data`, `_t`, and puts `(time_data, data)` on the process
queue.  `DriverRead` packages what the driver returned for one cycle:
the two raw channel buffers, `time_indisposed_ms`, and the trigger time
offset (`times`, `time_units`). -/

/-- `MAX_EXT = 32767` (src/picoscope3207a.py line 61). -/
def MAX_EXT : ℚ := 32767

/-- `self.v_range = CHANNEL_RANGE[7]["apivalue"]` = 8 (line 162). -/
def v_range : ℚ := 8

/-- `self._samples = int(self._sampling_duration / self._sampling_time)`
= int(100e-6 / 1e-6) = 100 (line 100). -/
def samples : Nat := 100

/-- `self._sampling_duration = 100E-6` (line 99). -/
def sampling_duration : ℚ := 100 / 1000000

/-- `np.linspace(a, b, n)`: `n` evenly spaced points from `a` to `b`
inclusive. -/
def linspace (a b : ℚ) (n : Nat) : List ℚ :=
  (List.range n).map (fun i => a + (b - a) * i / (n - 1))

/-- One item of the process / save queues: the tuple `(time_data, data)`
with `data` the 2×N array of scaled channel values. -/
structure Sample where
  time_data : List ℚ
  dataA : List ℚ
  dataB : List ℚ
deriving DecidableEq, Repr

/-- What the driver handed back during one `run` critical section. -/
structure DriverRead where
  rawA : List ℤ
  rawB : List ℤ
  time_indisposed_ms : ℤ
  times : ℤ
  time_units : ℤ
deriving DecidableEq, Repr

/-- The per-value scaling in `run` (line 316):
`data = np.array(self._data) * self.v_range / MAX_EXT`. -/
def scale (r : ℤ) : ℚ :=
  (r : ℚ) * v_range / MAX_EXT

/-- `offset_time = times.value * 10**(-15+3*time_units.value)`
(line 306). -/
def offset_time (times time_units : ℤ) : ℚ :=
  (times : ℚ) * (10 : ℚ) ^ (-15 + 3 * time_units)

/-- `time_data` as computed in `run` (lines 310-314): linspace over
`time_indisposed_ms` when positive, else over `_sampling_duration`, then
shifted by `offset_time`. -/
def time_data_of (d : DriverRead) : List ℚ :=
  let off := offset_time d.times d.time_units
  if d.time_indisposed_ms > 0 then
    (linspace 0 (d.time_indisposed_ms : ℚ) samples).map (fun x => x + off)
  else
    (linspace 0 sampling_duration samples).map (fun x => x + off)

/-- The queue item `(time_data, data)` that one collecting `run` cycle
builds from the driver's buffers (lines 306-322). -/
def acquired_sample (d : DriverRead) : Sample :=
  ⟨time_data_of d, d.rawA.map scale, d.rawB.map scale⟩

/-- The mutable fields of `Picoscope3207a` that `run` touches, plus the
two hand-off queues (modelled as the lists of items enqueued, in order)
and the flags `run` reads (`_collecting`) or that the claims mention
(`_has_error`, `_idx`). -/
structure PicoState where
  collecting : Bool
  has_error : Bool
  A_data : List ℚ
  B_data : List ℚ
  t : List ℚ
  idx : Nat
  process_queue : List Sample
  save_queue : List Sample
deriving DecidableEq, Repr

/-- The body of `Picoscope3207a.run` past the `if self._collecting or
override:` guard (lines 253-323): store the scaled channels and the time
axis, and put `(time_data, data)` on the process queue.  `_idx` is only
mentioned in commented-out code and never changes. -/
def run_body (st : PicoState) (d : DriverRead) : PicoState :=
  { st with
    A_data := (acquired_sample d).dataA
    B_data := (acquired_sample d).dataB
    t := (acquired_sample d).time_data
    process_queue := st.process_queue ++ [acquired_sample d] }

/-- `Picoscope3207a.run` (lines 250-323): guarded by
`self._collecting or override`. -/
def run (st : PicoState) (d : DriverRead) (override : Bool) : PicoState :=
  if st.collecting || override then run_body st d else st

/-- The body of `Picoscope3207a.process` (lines 325-339) applied to one
dequeued item: `t,v = get_queue.get()` then `put_queue.put((t,v))` — the
item is forwarded unchanged (the transform is commented out). -/
def process_item (tv : Sample) : Sample :=
  tv

/-! ### Persistence stage (src/picoscope3207a.py, `Picoscope3207a.save`)

`save` (lines 342-359) runs once on the save thread started by
`_start_device`.  It opens one csv file named from the current UTC time,
writes the header row `["Time (sec)","Channel A (V)","Channel B (V)"]`
once, and then loops forever: `times, voltages = queue.get()` and append
one data row per `zip(times, voltages[0], voltages[1])` entry.  Nothing in
the loop consults `_allow_save`, `_running`, or any per-sample flag (the
queue items carry none), and nothing ever reopens the file or rewrites
the header.  (`Device.save`, which does gate on `_running and
_allow_save`, is overridden by this method, and `Picoscope3207a` never
sets `_has_save_thread`, so the parent's gated loop never runs.) -/

/-- One line of the csv sink: the header row or one data row. -/
inductive Line
  | header
  | row (t v1 v2 : ℚ)
deriving DecidableEq, Repr

def isHeader : Line → Bool
  | .header => true
  | .row _ _ _ => false

/-- The data rows `save` appends for one dequeued sample:
`for t,v1,v2 in zip(times, voltages[0], voltages[1])`. -/
def rows (s : Sample) : List Line :=
  (s.time_data.zip (s.dataA.zip s.dataB)).map
    (fun p => Line.row p.1 p.2.1 p.2.2)

/-- The full csv contents produced by `save` after it has dequeued the
given samples in order: the single header written before the loop,
followed by every sample's data rows. -/
def save_file (dequeued : List Sample) : List Line :=
  Line.header :: dequeued.flatMap rows

/-- Events interleaved with the save thread's life: a sample arriving on
the save queue, or the GUI/controller calling `toggle_save` (which only
flips `_allow_save` and calls the `_create_log` hook — a `pass` for
`Picoscope3207a` — and is invisible to `save`). -/
inductive SaveEvt
  | sample (s : Sample)
  | toggle
deriving DecidableEq, Repr

/-- The csv lines one event contributes: a sample's data rows; nothing
for a toggle (`toggle_save` writes nothing — `_create_log` is a `pass`). -/
def evt_lines : SaveEvt → List Line
  | .sample s => rows s
  | .toggle => []

/-- The csv contents produced by `save` across an interleaving of sample
arrivals and capture toggles. -/
def save_file_trace (evts : List SaveEvt) : List Line :=
  Line.header :: evts.flatMap evt_lines

/-- Number of header records in a csv line list. -/
def headerCount (ls : List Line) : Nat :=
  ls.countP isHeader

/-- The specification's persistence gate, stated in its own words for
comparison (spec §4.5: "Writes only when the device's capture flag OR the
sample's one-shot flag is true"): the rows the spec says `save` should
write for one dequeued sample given the capture flag and the sample's
one-shot flag. -/
def save_writes_spec (allow_save oneshot : Bool) (s : Sample) : List Line :=
  if allow_save || oneshot then rows s else []

/-! ### Acquisition loop and exception flow (src/picoscope3207a.py)

`run_loop` (lines 240-244) is `while True: with self._run_lock:
self.run(queue)` followed by a 1 ms sleep.  Neither `run_loop` nor `run`
contains a `try`; every driver call inside `run`'s critical section goes
through `check_result`, which raises `IOError` on a nonzero status.  Such
an exception therefore propagates out of `run`, out of the `with` block
(releasing the lock) and out of `run_loop`'s `while`, terminating the
collect thread.  `CycleOutcome` records how the driver behaved during one
iteration's critical section; `run_loop_model` returns `.ok` with the
final state when every iteration ran, and `.error` with the state at the
raise when an iteration's critical section raised (later iterations never
execute).  `run` never assigns `_has_error`. -/

inductive CycleOutcome
  | ok (d : DriverRead)
  | ioerr
deriving DecidableEq, Repr

/-- One iteration of `run_loop`: `run` with `override = False`.  An
`IOError` from `check_result` escapes uncaught (`.error`); in a
non-collecting cycle the guard skips the critical section entirely, so no
driver call can raise. -/
def run_cycle (st : PicoState) (o : CycleOutcome) :
    Except PicoState PicoState :=
  if st.collecting then
    match o with
    | .ok d => .ok (run_body st d)
    | .ioerr => .error st
  else .ok st

/-- `run_loop` over a finite prefix of iterations: stops at the first
uncaught exception. -/
def run_loop_model : List CycleOutcome → PicoState →
    Except PicoState PicoState
  | [], st => .ok st
  | o :: rest, st =>
    match run_cycle st o with
    | .ok st1 => run_loop_model rest st1
    | .error e => .error e

/-- The `Picoscope3207a` state an `Except` outcome carries, whichever way
the loop ended. -/
def exc_state : Except PicoState PicoState → PicoState
  | .ok s => s
  | .error s => s

lemma run_body_has_error (st : PicoState) (d : DriverRead) :
    (run_body st d).has_error = st.has_error := rfl

lemma run_loop_model_has_error (outs : List CycleOutcome) (st : PicoState) :
    (exc_state (run_loop_model outs st)).has_error = st.has_error := by
  induction outs generalizing st with
  | nil => rfl
  | cons o rest ih =>
    simp only [run_loop_model, run_cycle]
    by_cases hc : st.collecting
    · cases o with
      | ok d =>
        simp only [hc, if_pos, ih (run_body st d), run_body_has_error]
      | ioerr => simp [hc, exc_state]
    · simp only [hc, if_neg, Bool.false_eq_true, ite_false]
      exact ih st

/-! ### Helper lemmas for the persistence stage -/

lemma countP_isHeader_rows (s : Sample) : (rows s).countP isHeader = 0 := by
  rw [List.countP_eq_zero]
  intro a ha
  obtain ⟨x, _, rfl⟩ := List.mem_map.1 ha
  simp [isHeader]

lemma countP_isHeader_evt_lines (e : SaveEvt) :
    (evt_lines e).countP isHeader = 0 := by
  cases e with
  | sample s => exact countP_isHeader_rows s
  | toggle => rfl

lemma countP_isHeader_flatMap (evts : List SaveEvt) :
    (evts.flatMap evt_lines).countP isHeader = 0 := by
  induction evts with
  | nil => rfl
  | cons e rest ih =>
    rw [List.flatMap_cons, List.countP_append, countP_isHeader_evt_lines, ih]

/-! ### Claim theorems -/

/-- C1, counterexample.  The claim says `ready` is false in every state
with the fault flag set.  But after a successful `open()` followed by a
`start()` whose `_start_device` hook raises, `_has_error` is true while
`_open` — and hence `ready` — is still true (the `check_error` monitor
that would clear `_open` is never started). -/
theorem C1_counterexample :
    (run_ops [Op.opStart HookBeh.err] (run_ops [Op.opOpen HookBeh.ok] init)).has_error
        = true ∧
    ready (run_ops [Op.opStart HookBeh.err] (run_ops [Op.opOpen HookBeh.ok] init))
        = true := by
  exact ⟨by decide, by decide⟩

/-- C1, amended: `ready` returns exactly `_open`; it is unaffected by the
fault flag (in particular it does not go false when `_has_error` is set),
and in every reachable state it is true whenever the device is running. -/
theorem C1_ready_tracks_open_ignoring_fault :
    (∀ (s : DeviceState) (b : Bool), ready { s with has_error := b } = ready s) ∧
    (∀ ops : List Op, (run_ops ops init).running = true →
      ready (run_ops ops init) = true) := by
  refine ⟨fun s b => rfl, fun ops h => ?_⟩
  exact run_ops_preserves_running_open ops init (by decide) h

/-- Witness for the amended C1 theorem at the trace `open(); start()` with
both hooks succeeding. -/
theorem C1_amended_witness :
    (run_ops [Op.opOpen HookBeh.ok, Op.opStart HookBeh.ok] init).running = true ∧
    ready (run_ops [Op.opOpen HookBeh.ok, Op.opStart HookBeh.ok] init) = true :=
  ⟨by decide,
   C1_ready_tracks_open_ignoring_fault.2
     [Op.opOpen HookBeh.ok, Op.opStart HookBeh.ok] (by decide)⟩

/-- C2, counterexample.  The claim says `close()` clears the fault flag.
After a failed `open()` the device is faulted; calling `close()` (both
hooks succeeding) leaves `_has_error` still true — `close` only clears
`_open`/`_opening`, and no code outside `__init__` ever writes
`_has_error = False`. -/
theorem C2_counterexample :
    (run_ops [Op.opOpen HookBeh.err] init).has_error = true ∧
    (run_ops [Op.opOpen HookBeh.err, Op.opClose HookBeh.ok HookBeh.ok] init).has_error
      = true := by
  exact ⟨by decide, by decide⟩

/-- C2, amended: once the fault flag is set it stays set across every
subsequent sequence of public lifecycle operations, including `close()`;
no public operation clears it. -/
theorem C2_fault_flag_never_cleared (ops : List Op) (s : DeviceState)
    (h : s.has_error = true) : (run_ops ops s).has_error = true :=
  run_ops_has_error_mono ops s h

/-- Witness for the amended C2 theorem: a faulted state stays faulted
through a subsequent `close()`. -/
theorem C2_amended_witness :
    (run_ops [Op.opOpen HookBeh.err] init).has_error = true ∧
    (run_ops [Op.opClose HookBeh.ok HookBeh.ok]
      (run_ops [Op.opOpen HookBeh.err] init)).has_error = true :=
  ⟨by decide,
   C2_fault_flag_never_cleared [Op.opClose HookBeh.ok HookBeh.ok]
     (run_ops [Op.opOpen HookBeh.err] init) (by decide)⟩

/-- C3: in every state reachable from the initial state by any finite
sequence of public lifecycle operations (with the device hooks succeeding
or raising arbitrarily at each call), `_running = true` implies
`_open = true`: the controller never runs without being open. -/
theorem C3_running_implies_open (ops : List Op)
    (h : (run_ops ops init).running = true) :
    (run_ops ops init).is_open = true :=
  run_ops_preserves_running_open ops init (by decide) h

/-- Witness for C3 at the trace `open(); start()` with both hooks
succeeding. -/
theorem C3_witness :
    (run_ops [Op.opOpen HookBeh.ok, Op.opStart HookBeh.ok] init).running = true ∧
    (run_ops [Op.opOpen HookBeh.ok, Op.opStart HookBeh.ok] init).is_open = true :=
  ⟨by decide,
   C3_running_implies_open [Op.opOpen HookBeh.ok, Op.opStart HookBeh.ok]
     (by decide)⟩

/-- C4, counterexample.  The claim says a sample dequeued while the
capture flag and the one-shot flag are both false is not written
(`save_writes_spec false false s = []`).  But `Picoscope3207a.save`
consults no flag at all — queue items carry none — and writes the data
rows of every sample it dequeues: the csv file after dequeuing one sample
contains its data row. -/
theorem C4_counterexample :
    save_writes_spec false false ⟨[0], [1], [2]⟩ = [] ∧
    Line.row 0 1 2 ∈ save_file [⟨[0], [1], [2]⟩] := by
  exact ⟨by decide, by decide⟩

/-- C4, amended: `Picoscope3207a.save` writes every dequeued sample
unconditionally — each data row of each dequeued sample appears in the
csv file; neither `_allow_save` nor any per-sample flag is consulted
(gating happens upstream, in `run`'s `_collecting or override` guard). -/
theorem C4_save_writes_every_dequeued_sample
    (dequeued : List Sample) (s : Sample) (hs : s ∈ dequeued)
    (l : Line) (hl : l ∈ rows s) : l ∈ save_file dequeued := by
  unfold save_file
  exact List.mem_cons_of_mem _ (List.mem_flatMap.2 ⟨s, hs, hl⟩)

/-- Witness for the amended C4 theorem on a one-sample queue. -/
theorem C4_amended_witness :
    (⟨[0], [1], [2]⟩ : Sample) ∈ [(⟨[0], [1], [2]⟩ : Sample)] ∧
    Line.row 0 1 2 ∈ rows ⟨[0], [1], [2]⟩ ∧
    Line.row 0 1 2 ∈ save_file [⟨[0], [1], [2]⟩] :=
  ⟨by decide, by decide,
   C4_save_writes_every_dequeued_sample [⟨[0], [1], [2]⟩] ⟨[0], [1], [2]⟩
     (by decide) (Line.row 0 1 2) (by decide)⟩

/-- The ProcessingStage output the claim describes, in the
specification's own words: for a dequeued raw sample (timestamps plus raw
integer counts per channel), the enqueued processed values are
`value = raw * range / max_code`. -/
def process_item_spec (t : List ℚ) (rawA rawB : List ℤ) : Sample :=
  ⟨t, rawA.map scale, rawB.map scale⟩

/-- C5, counterexample.  `Picoscope3207a.process` forwards each dequeued
item unchanged (`put_queue.put((t,v))` straight after `get`); for the raw
counts `[100]`/`[200]` the claim requires the enqueued values to be
scaled by `v_range / MAX_EXT = 8 / 32767`, which differs from the
forwarded values. -/
theorem C5_counterexample :
    process_item ⟨[0], [100], [200]⟩ = ⟨[0], [100], [200]⟩ ∧
    process_item ⟨[0], [100], [200]⟩ ≠ process_item_spec [0] [100] [200] := by
  refine ⟨rfl, fun h => ?_⟩
  have h2 := congrArg Sample.dataA h
  simp only [process_item, process_item_spec, List.map_cons, List.map_nil,
    scale, List.cons.injEq, and_true] at h2
  norm_num [v_range, MAX_EXT] at h2

/-- C5, amended: the scaling `value = raw * v_range / MAX_EXT` (with
`v_range = 8`, the API range code, and `MAX_EXT = 32767`) is applied by
the acquisition step `run` before the sample is enqueued, together with
the computed time axis; the ProcessingStage then forwards the already
scaled sample unchanged.  Queue items carry no capture-requested flag. -/
theorem C5_scaling_in_run_process_is_identity (st : PicoState)
    (d : DriverRead) (h : st.collecting = true) :
    (run st d false).process_queue = st.process_queue ++ [acquired_sample d] ∧
    (acquired_sample d).dataA = d.rawA.map scale ∧
    (acquired_sample d).dataB = d.rawB.map scale ∧
    (acquired_sample d).time_data = time_data_of d ∧
    process_item (acquired_sample d) = acquired_sample d := by
  refine ⟨?_, rfl, rfl, rfl, rfl⟩
  simp [run, h, run_body]

/-- Witness for the amended C5 theorem on a concrete collecting state and
driver read. -/
theorem C5_amended_witness :
    (⟨true, false, [], [], [], 0, [], []⟩ : PicoState).collecting = true ∧
    (run ⟨true, false, [], [], [], 0, [], []⟩ ⟨[100], [200], 0, 0, 0⟩
        false).process_queue =
      [] ++ [acquired_sample ⟨[100], [200], 0, 0, 0⟩] :=
  ⟨rfl,
   (C5_scaling_in_run_process_is_identity ⟨true, false, [], [], [], 0, [], []⟩
     ⟨[100], [200], 0, 0, 0⟩ rfl).1⟩

/-- C6, counterexample.  The claim says a raise in the device-access
critical section is caught and the loop continues with its next
iteration.  In the code neither `run` nor `run_loop` contains a `try`:
with the device collecting, an `IOError` in the first iteration ends
`run_loop_model` in `.error` with the remaining iteration never executed
(had it been caught, the result would be `.ok` of the state produced by
the second iteration).  The fault flag is indeed not set. -/
theorem C6_counterexample :
    run_loop_model [CycleOutcome.ioerr, CycleOutcome.ok ⟨[1], [2], 0, 0, 0⟩]
        ⟨true, false, [], [], [], 0, [], []⟩ =
      Except.error ⟨true, false, [], [], [], 0, [], []⟩ ∧
    (⟨true, false, [], [], [], 0, [], []⟩ : PicoState).has_error = false :=
  ⟨rfl, rfl⟩

/-- C6, amended: an exception in the device-access critical section of a
collecting cycle is not caught — it propagates out of `run` and
`run_loop`, terminating the acquisition loop with all later iterations
skipped and the state as it was at the raise; and no acquisition cycle
ever sets `_has_error`. -/
theorem C6_uncaught_exception_terminates_loop (outs : List CycleOutcome)
    (st : PicoState) (h : st.collecting = true) :
    run_loop_model (CycleOutcome.ioerr :: outs) st = Except.error st ∧
    (exc_state (run_loop_model outs st)).has_error = st.has_error := by
  refine ⟨?_, run_loop_model_has_error outs st⟩
  simp [run_loop_model, run_cycle, h]

/-- Witness for the amended C6 theorem on a concrete collecting state. -/
theorem C6_amended_witness :
    (⟨true, false, [], [], [], 0, [], []⟩ : PicoState).collecting = true ∧
    run_loop_model [CycleOutcome.ioerr] ⟨true, false, [], [], [], 0, [], []⟩ =
      Except.error ⟨true, false, [], [], [], 0, [], []⟩ :=
  ⟨rfl,
   (C6_uncaught_exception_terminates_loop []
     ⟨true, false, [], [], [], 0, [], []⟩ rfl).1⟩

/-- C7: the callable produced by `clockwork` returns exactly the wrapped
operation's result; it never shortens the call (no negative wait); when
the operation takes `t < P` the total wrapped duration lies in
`[P - contingency, P]`; and when `t ≥ P` the wrapped call returns
immediately, with total duration exactly `t`. -/
theorem C7_clockwork_timing (α : Type) (op : Timed α) (P : ℚ) :
    (clockwork_run P op).result = op.result ∧
    op.elapsed ≤ (clockwork_run P op).elapsed ∧
    (op.elapsed < P →
      P - contingency ≤ (clockwork_run P op).elapsed ∧
      (clockwork_run P op).elapsed ≤ P) ∧
    (P ≤ op.elapsed → clockwork_run P op = op) := by
  obtain ⟨r, t⟩ := op
  refine ⟨rfl, le_max_left _ _, fun h => ⟨le_max_right _ _, ?_⟩, fun h => ?_⟩
  · exact max_le h.le (by simp only [contingency]; linarith)
  · have hm : max t (P - contingency) = t :=
      max_eq_left (by simp only [contingency]; linarith)
    simp [clockwork_run, hm]

/-- Witness for C7: wrapping a 0.5 s body in a 1 s period busy-waits to
at least 0.999 s and at most 1 s; wrapping a 3 s body in a 1 s period
returns immediately with no extra wait. -/
theorem C7_witness :
    ((1 : ℚ) / 2 < 1 ∧
      (1 - contingency ≤ (clockwork_run 1 (⟨5, 1 / 2⟩ : Timed ℚ)).elapsed ∧
        (clockwork_run 1 (⟨5, 1 / 2⟩ : Timed ℚ)).elapsed ≤ 1)) ∧
    ((1 : ℚ) ≤ 3 ∧
      clockwork_run 1 (⟨5, 3⟩ : Timed ℚ) = (⟨5, 3⟩ : Timed ℚ)) :=
  ⟨⟨by norm_num,
    (C7_clockwork_timing ℚ ⟨5, 1 / 2⟩ 1).2.2.1 (by norm_num)⟩,
   ⟨by norm_num,
    (C7_clockwork_timing ℚ ⟨5, 3⟩ 1).2.2.2 (by norm_num)⟩⟩

/-- C8, counterexample.  The claim says `open()` called outside `Closed`
does not invoke the device-open hook again.  After one successful
`open()` the state is Open (`_open = true`); a second `open()` invokes
`_open_device` again — the hook call count goes from 1 to 2, because
`Device.open` has no state guard at all. -/
theorem C8_counterexample :
    (run_ops [Op.opOpen HookBeh.ok] init).is_open = true ∧
    (run_ops [Op.opOpen HookBeh.ok] init).open_calls = 1 ∧
    (run_ops [Op.opOpen HookBeh.ok, Op.opOpen HookBeh.ok] init).open_calls = 2 := by
  exact ⟨by decide, by decide, by decide⟩

/-- C8, amended: `open()` is entirely unguarded — from every state each
call sets `_opening`, invokes the `_open_device` hook exactly once more,
and on success leaves `_open` true; for this repository's devices (both
thread flags falsy) it spawns no background threads and allocates no new
queue, whatever the state. -/
theorem C8_open_runs_unguarded (s : DeviceState) (h : HookBeh) :
    (open_dev h s).open_calls = s.open_calls + 1 ∧
    (open_dev h s).opening = true ∧
    (h = HookBeh.ok → (open_dev h s).is_open = true) ∧
    (s.has_save_thread = false → s.has_update_thread = false →
      (open_dev h s).spawned = s.spawned ∧
        (open_dev h s).queue_gen = s.queue_gen) := by
  cases h <;>
    simp only [open_dev] <;>
    split <;> (try split) <;> (try split) <;> (try split) <;>
    simp_all

/-- Witness for the amended C8 theorem at a second `open()` from the Open
state reached by one successful `open()`. -/
theorem C8_amended_witness :
    (open_dev HookBeh.ok (run_ops [Op.opOpen HookBeh.ok] init)).open_calls =
      (run_ops [Op.opOpen HookBeh.ok] init).open_calls + 1 ∧
    (open_dev HookBeh.ok (run_ops [Op.opOpen HookBeh.ok] init)).is_open = true ∧
    (open_dev HookBeh.ok (run_ops [Op.opOpen HookBeh.ok] init)).spawned =
      (run_ops [Op.opOpen HookBeh.ok] init).spawned :=
  ⟨(C8_open_runs_unguarded (run_ops [Op.opOpen HookBeh.ok] init) HookBeh.ok).1,
   (C8_open_runs_unguarded (run_ops [Op.opOpen HookBeh.ok] init) HookBeh.ok).2.2.1
     rfl,
   ((C8_open_runs_unguarded (run_ops [Op.opOpen HookBeh.ok] init) HookBeh.ok).2.2.2
     (by decide) (by decide)).1⟩

/-- C9, counterexample.  The claim says disabling and re-enabling capture
opens a new session with a fresh header before the next data writes.  In
the trace "sample, capture off, capture on, sample" the csv still
contains exactly one header (the one written when the save thread
started): the post-re-enable sample was appended to the old session with
no new header — `toggle_save` only flips `_allow_save`, and
`_create_log` is a `pass` for `Picoscope3207a`. -/
theorem C9_counterexample :
    headerCount (save_file_trace
      [SaveEvt.sample ⟨[0], [1], [2]⟩, SaveEvt.toggle, SaveEvt.toggle,
        SaveEvt.sample ⟨[1], [3], [4]⟩]) = 1 := by
  decide

/-- C9, amended: across every interleaving of dequeued samples and
capture toggles, the save thread writes exactly one header — the one
written when the thread started; no toggle ever produces a new session
or header. -/
theorem C9_exactly_one_header (evts : List SaveEvt) :
    headerCount (save_file_trace evts) = 1 := by
  simp [headerCount, save_file_trace, List.countP_cons, isHeader,
    countP_isHeader_flatMap evts]

/-- C10: calling `run` with `override = false` in any state whose
`_collecting` flag is false leaves the entire object unchanged — nothing
is enqueued on either queue and `_A_data`, `_B_data`, `_t`, `_idx` keep
their values (its only effect is the `clockwork`-imposed wait). -/
theorem C10_run_is_noop_when_not_collecting (st : PicoState)
    (d : DriverRead) (h : st.collecting = false) : run st d false = st := by
  simp [run, h]

/-- Witness for C10 on a concrete non-collecting state with nonempty
fields and queues. -/
theorem C10_witness :
    (⟨false, false, [1], [2], [3], 5, [⟨[0], [1], [2]⟩], []⟩ :
        PicoState).collecting = false ∧
    run ⟨false, false, [1], [2], [3], 5, [⟨[0], [1], [2]⟩], []⟩
        ⟨[7], [8], 0, 0, 0⟩ false =
      ⟨false, false, [1], [2], [3], 5, [⟨[0], [1], [2]⟩], []⟩ :=
  ⟨rfl,
   C10_run_is_noop_when_not_collecting
     ⟨false, false, [1], [2], [3], 5, [⟨[0], [1], [2]⟩], []⟩
     ⟨[7], [8], 0, 0, 0⟩ rfl⟩

end Pico
